import Mathlib

/-!
Shallow embedding of `src/frontend/src-tauri/src/audio/permissions.rs`
(macOS audio-permission handling of the meeting-minutes application).

The OS and the external capture-engine collaborator are modelled as explicit
oracle inputs: the outcome of `host.default_input_device()` is an
`Option Unit` (presence of a default input device), the outcome of the
capture-engine construction / stream-open attempts and of the microphone
probe are `Except String Unit` values (the `String` is the error text), and
the process launcher is a function from the launched URI to its spawn
outcome.  External side effects (device queries, stream probes, process
launches, sleeps) are recorded in an explicit `Effect` trace, so that the
"no further side effects" and "same sequence of effects" claims are
statable.  Logging is not an effect of interest and is not modelled.
-/

deriving instance DecidableEq for Except

/-- External side effects performed by the permission subsystem. -/
inductive Effect where
  /-- Query of `host.default_input_device()` (non-mutating probe). -/
  | micDeviceQuery : Effect
  /-- Microphone stream-open attempt via `trigger_audio_permission`
      (mutating: may surface the OS consent dialog). -/
  | micStreamProbe : Effect
  /-- Spawn of the OS URI-scheme launcher (`open <uri>`). -/
  | settingsLaunch (uri : String) : Effect
  /-- Thread sleep of the given number of milliseconds. -/
  | sleepMs (ms : Nat) : Effect
  deriving DecidableEq

/-- Decides whether the character list `pat` occurs at the start of `s`. -/
def startsWithChars : List Char → List Char → Bool
  | [], _ => true
  | _ :: _, [] => false
  | a :: as, b :: bs => a == b && startsWithChars as bs

/-- Decides whether the character list `pat` occurs anywhere inside `s`
    (the embedding of Rust's `str::contains` on these ASCII patterns). -/
def hasSubChars (s pat : List Char) : Bool :=
  match s with
  | [] => pat.isEmpty
  | _ :: rest => startsWithChars pat s || hasSubChars rest pat

/-- Character-wise lowercasing of a string's characters (the embedding of
    `to_lowercase()` on the ASCII error texts involved here; it equals
    `String.toLower`'s character map). -/
def lowerChars (s : List Char) : List Char :=
  s.map Char.toLower

/-- The classification applied by `trigger_system_audio_permission` to a
    failure text: `error_msg = e.to_string().to_lowercase();
    error_msg.contains("permission") || error_msg.contains("audio")`. -/
def isPermissionShapedError (e : String) : Bool :=
  let error_msg := lowerChars e.toList
  hasSubChars error_msg "permission".toList ||
    hasSubChars error_msg "audio".toList

/-- Embedding of `check_screen_recording_permission` (macOS variant): logs
    and then returns `true` unconditionally. -/
def check_screen_recording_permission : Bool :=
  true

/-- The fixed settings-panel identifier passed to the `open` launcher by
    `request_screen_recording_permission`. -/
def systemSettingsURI : String :=
  "x-apple.systempreferences:com.apple.preference.security"

/-- Embedding of `request_screen_recording_permission` (macOS variant) with
    its effect trace.  `spawn` is the OS process launcher: it is handed the
    launched URI and reports whether the spawn succeeded.  On spawn failure
    the function wraps the OS error text exactly as the source does. -/
def request_screen_recording_permission_eff
    (spawn : String → Except String Unit) :
    Except String Unit × List Effect :=
  let result := spawn systemSettingsURI
  (match result with
   | Except.ok _ => Except.ok ()
   | Except.error e =>
       Except.error ("Failed to open System Settings: " ++ e),
   [Effect.settingsLaunch systemSettingsURI])

/-- Result component of `request_screen_recording_permission_eff`. -/
def request_screen_recording_permission
    (spawn : String → Except String Unit) : Except String Unit :=
  (request_screen_recording_permission_eff spawn).1

/-- Body of `ensure_screen_recording_permission`, parametric in the value
    returned by `check_screen_recording_permission` (the source calls the
    nullary check first; the parameter makes its result explicit so each
    branch of the body can be reasoned about):
    if the check reports granted, return `true`; otherwise request, and
    return `false` whether or not the request succeeded. -/
def ensure_screen_recording_permission_body
    (check_result : Bool) (spawn : String → Except String Unit) :
    Bool × List Effect :=
  if check_result then (true, [])
  else
    let r := request_screen_recording_permission_eff spawn
    match r.1 with
    | Except.error _ => (false, r.2)
    | Except.ok _ => (false, r.2)

/-- Embedding of `ensure_screen_recording_permission` with its effect
    trace: the body applied to the actual (constant) check result. -/
def ensure_screen_recording_permission
    (spawn : String → Except String Unit) : Bool × List Effect :=
  ensure_screen_recording_permission_body check_screen_recording_permission spawn

/-- Embedding of `trigger_system_audio_permission` (macOS variant).
    `construct` is the outcome of `CoreAudioCapture::new()` and `stream`
    the outcome of `capture.stream()`; on failure of either, the failure
    text is classified by `isPermissionShapedError` and either swallowed
    (returning success) or propagated verbatim; when both succeed the
    stream is discarded and success is returned. -/
def trigger_system_audio_permission
    (construct : Except String Unit) (stream : Except String Unit) :
    Except String Unit :=
  match construct with
  | Except.ok _ =>
      match stream with
      | Except.ok _ => Except.ok ()
      | Except.error e =>
          if isPermissionShapedError e then Except.ok () else Except.error e
  | Except.error e =>
      if isPermissionShapedError e then Except.ok () else Except.error e

/-- Embedding of `check_microphone_permission` (macOS variant) with its
    effect trace: queries `host.default_input_device()` and reports
    `true` exactly when a device is present. -/
def check_microphone_permission_eff (dev : Option Unit) :
    Bool × List Effect :=
  (match dev with
   | some _ => true
   | none => false,
   [Effect.micDeviceQuery])

/-- Result component of `check_microphone_permission_eff`. -/
def check_microphone_permission (dev : Option Unit) : Bool :=
  (check_microphone_permission_eff dev).1

/-- Embedding of `request_microphone_permission` (macOS variant) with its
    effect trace.  `trigger` is the outcome of the external
    `crate::audio::trigger_audio_permission()` stream-open probe; the
    function propagates it unchanged. -/
def request_microphone_permission_eff (trigger : Except String Unit) :
    Except String Unit × List Effect :=
  (match trigger with
   | Except.ok _ => Except.ok ()
   | Except.error e => Except.error e,
   [Effect.micStreamProbe])

/-- Result component of `request_microphone_permission_eff`. -/
def request_microphone_permission (trigger : Except String Unit) :
    Except String Unit :=
  (request_microphone_permission_eff trigger).1

/-- Embedding of `ensure_microphone_permission` (macOS variant) with its
    effect trace.  `dev1` and `dev2` are the outcomes of the first and
    second `host.default_input_device()` queries (consecutive queries may
    differ), `trigger` the outcome of the probe behind
    `request_microphone_permission`.  If the first check grants, return
    `true`; otherwise request; if the request fails return `false`;
    otherwise re-check and return the fresh result. -/
def ensure_microphone_permission_eff
    (dev1 dev2 : Option Unit) (trigger : Except String Unit) :
    Bool × List Effect :=
  let c1 := check_microphone_permission_eff dev1
  if c1.1 then (true, c1.2)
  else
    let r := request_microphone_permission_eff trigger
    match r.1 with
    | Except.error _ => (false, c1.2 ++ r.2)
    | Except.ok _ =>
        let c2 := check_microphone_permission_eff dev2
        (c2.1, c1.2 ++ r.2 ++ c2.2)

/-- Result component of `ensure_microphone_permission_eff`. -/
def ensure_microphone_permission
    (dev1 dev2 : Option Unit) (trigger : Except String Unit) : Bool :=
  (ensure_microphone_permission_eff dev1 dev2 trigger).1

/-- Effect trace of the closure run on the background thread spawned by
    `init_microphone_permission`: sleep 500 ms, check the microphone
    permission, and only when it is not granted run the request,
    discarding its result.  Note that no re-check follows the request. -/
def init_microphone_task_eff
    (dev1 : Option Unit) (trigger : Except String Unit) : List Effect :=
  let c1 := check_microphone_permission_eff dev1
  if !c1.1 then
    let r := request_microphone_permission_eff trigger
    Effect.sleepMs 500 :: (c1.2 ++ r.2)
  else
    Effect.sleepMs 500 :: c1.2

/-- Process-wide state relevant to `init_microphone_permission`: whether
    the `INIT_MICROPHONE_PERMISSION` `Once` has already run its closure,
    and how many background tasks have been spawned so far. -/
structure ProcState where
  initDone : Bool
  tasksScheduled : Nat
  deriving DecidableEq

/-- Process state at startup: the `Once` is fresh and no task has been
    scheduled. -/
def initialProcState : ProcState :=
  { initDone := false, tasksScheduled := 0 }

/-- State transition of one call to `init_microphone_permission`:
    `Once.call_once` runs the closure (which spawns one background
    thread) exactly when it has not run before, and marks itself run. -/
def init_microphone_permission_step (s : ProcState) : ProcState :=
  if s.initDone then s
  else { initDone := true, tasksScheduled := s.tasksScheduled + 1 }

/-- `n` successive calls to `init_microphone_permission`, starting from
    state `s`. -/
def init_microphone_permission_calls : Nat → ProcState → ProcState
  | 0, s => s
  | n + 1, s => init_microphone_permission_calls n (init_microphone_permission_step s)

/-- Helper: once the run-once flag is set, any number of further calls to
    `init_microphone_permission` leaves the process state unchanged. -/
theorem init_calls_fixed (n : Nat) (s : ProcState) (h : s.initDone = true) :
    init_microphone_permission_calls n s = s := by
  induction n generalizing s with
  | zero => rfl
  | succ n ih =>
      simp only [init_microphone_permission_calls,
        init_microphone_permission_step, h, if_true]
      exact ih s h

/-- C1: in a call of `ensure_screen_recording_permission` whose check
    reported not-granted and whose request succeeded, the call still
    returns `false` (not granted): it never reports granted as the result
    of a successful request within the same call. -/
theorem ensure_screen_recording_not_granted_on_request_success
    (spawn : String → Except String Unit)
    (h : request_screen_recording_permission spawn = Except.ok ()) :
    (ensure_screen_recording_permission_body false spawn).1 = false := by
  cases hr : (request_screen_recording_permission_eff spawn).1 <;>
    simp [ensure_screen_recording_permission_body, hr]

/-- Witness for C1 at a launcher whose spawn succeeds. -/
theorem ensure_screen_recording_not_granted_on_request_success_witness :
    request_screen_recording_permission (fun _ => Except.ok ()) = Except.ok () ∧
    (ensure_screen_recording_permission_body false (fun _ => Except.ok ())).1 = false :=
  ⟨rfl, ensure_screen_recording_not_granted_on_request_success
    (fun _ => Except.ok ()) rfl⟩

/-- C2: in a call of `ensure_microphone_permission` whose first check
    reported not-granted and whose request succeeded, the call performs a
    second, fresh device query and returns exactly that second check's
    result (which varies with the second query's outcome `dev2`). -/
theorem ensure_microphone_returns_fresh_recheck
    (dev1 dev2 : Option Unit) (trigger : Except String Unit)
    (h1 : check_microphone_permission dev1 = false)
    (h2 : request_microphone_permission trigger = Except.ok ()) :
    ensure_microphone_permission dev1 dev2 trigger = check_microphone_permission dev2 ∧
    (ensure_microphone_permission_eff dev1 dev2 trigger).2 =
      [Effect.micDeviceQuery, Effect.micStreamProbe, Effect.micDeviceQuery] := by
  cases dev1 <;> cases trigger <;>
    simp_all [ensure_microphone_permission, ensure_microphone_permission_eff,
      check_microphone_permission, check_microphone_permission_eff,
      request_microphone_permission, request_microphone_permission_eff]

/-- Witness for C2: no device on the first query, successful request, a
    device on the second query. -/
theorem ensure_microphone_returns_fresh_recheck_witness :
    check_microphone_permission none = false ∧
    request_microphone_permission (Except.ok ()) = Except.ok () ∧
    (ensure_microphone_permission none (some ()) (Except.ok ()) =
        check_microphone_permission (some ()) ∧
      (ensure_microphone_permission_eff none (some ()) (Except.ok ())).2 =
        [Effect.micDeviceQuery, Effect.micStreamProbe, Effect.micDeviceQuery]) :=
  ⟨rfl, rfl,
    ensure_microphone_returns_fresh_recheck none (some ()) (Except.ok ()) rfl rfl⟩

/-- C3: for either capability, when the check reports granted, ensure
    returns granted immediately with no request, probe or launch effect:
    the microphone ensure's whole trace is the single non-mutating device
    query, and the screen-recording ensure's trace is empty (its check,
    which constantly reports granted, performs no modelled effect). -/
theorem ensure_granted_short_circuits
    (dev dev2 : Option Unit) (trigger : Except String Unit)
    (spawn : String → Except String Unit)
    (h : check_microphone_permission dev = true) :
    (ensure_microphone_permission dev dev2 trigger = true ∧
      (ensure_microphone_permission_eff dev dev2 trigger).2 = [Effect.micDeviceQuery]) ∧
    (check_screen_recording_permission = true ∧
      (ensure_screen_recording_permission spawn).1 = true ∧
      (ensure_screen_recording_permission spawn).2 = []) := by
  cases dev <;>
    simp_all [ensure_microphone_permission, ensure_microphone_permission_eff,
      check_microphone_permission, check_microphone_permission_eff,
      check_screen_recording_permission, ensure_screen_recording_permission,
      ensure_screen_recording_permission_body]

/-- Witness for C3 at a present default input device. -/
theorem ensure_granted_short_circuits_witness :
    check_microphone_permission (some ()) = true ∧
    ((ensure_microphone_permission (some ()) none (Except.error "fail") = true ∧
        (ensure_microphone_permission_eff (some ()) none (Except.error "fail")).2 =
          [Effect.micDeviceQuery]) ∧
      (check_screen_recording_permission = true ∧
        (ensure_screen_recording_permission (fun _ => Except.ok ())).1 = true ∧
        (ensure_screen_recording_permission (fun _ => Except.ok ())).2 = [])) :=
  ⟨rfl, ensure_granted_short_circuits (some ()) none (Except.error "fail")
    (fun _ => Except.ok ()) rfl⟩

/-- C4: `trigger_system_audio_permission` classifies a failure — at
    construction or at stream-open — by whether its lowercased text
    contains "permission" or "audio": if so it returns success, otherwise
    it propagates the failure verbatim; a "device busy" failure is
    propagated, and when both steps succeed it returns success. -/
theorem trigger_system_audio_classification
    (s : Except String Unit) (e : String) :
    trigger_system_audio_permission (Except.error e) s =
      (if isPermissionShapedError e then Except.ok () else Except.error e) ∧
    trigger_system_audio_permission (Except.ok ()) (Except.error e) =
      (if isPermissionShapedError e then Except.ok () else Except.error e) ∧
    trigger_system_audio_permission (Except.ok ()) (Except.ok ()) = Except.ok () ∧
    trigger_system_audio_permission (Except.error "device busy") s =
      Except.error "device busy" ∧
    trigger_system_audio_permission (Except.ok ()) (Except.error "device busy") =
      Except.error "device busy" := by
  have hb : isPermissionShapedError "device busy" = false := by decide
  exact ⟨rfl, rfl, rfl,
    by simp [trigger_system_audio_permission, hb],
    by simp [trigger_system_audio_permission, hb]⟩

/-- C5 counterexample: with no device on the first query and a successful
    request, the background task of `init_microphone_permission` does not
    perform the same effect sequence as `ensure_microphone_permission`
    after its 500 ms sleep — ensure performs a final re-check that the
    task omits. -/
theorem init_task_not_full_ensure_counterexample :
    init_microphone_task_eff none (Except.ok ()) ≠
      Effect.sleepMs 500 ::
        (ensure_microphone_permission_eff none (some ()) (Except.ok ())).2 := by
  decide

/-- C5 amended: the background task sleeps 500 ms and then performs
    `ensure_microphone_permission`'s check and (when not granted) request
    effects, discarding the result, but omits ensure's final re-check:
    appending the missing device query — present exactly when the first
    check denied and the request succeeded — to the task's trace yields
    the sleep followed by ensure's full trace. -/
theorem init_task_omits_final_recheck
    (dev1 dev2 : Option Unit) (trigger : Except String Unit) :
    init_microphone_task_eff dev1 trigger ++
      (if check_microphone_permission dev1 = false ∧
          request_microphone_permission trigger = Except.ok ()
        then [Effect.micDeviceQuery] else []) =
      Effect.sleepMs 500 ::
        (ensure_microphone_permission_eff dev1 dev2 trigger).2 := by
  cases dev1 <;> cases trigger <;>
    simp [init_microphone_task_eff, ensure_microphone_permission_eff,
      check_microphone_permission, check_microphone_permission_eff,
      request_microphone_permission, request_microphone_permission_eff]

/-- C6: for every N ≥ 1, N calls to `init_microphone_permission` within
    one process lifetime schedule exactly one background task, the flag
    ends up set, and the step function never resets a set flag. -/
theorem init_microphone_permission_once_only (n : Nat) (h : 1 ≤ n) :
    (init_microphone_permission_calls n initialProcState).tasksScheduled = 1 ∧
    (init_microphone_permission_calls n initialProcState).initDone = true ∧
    ∀ s : ProcState, s.initDone = true →
      (init_microphone_permission_step s).initDone = true := by
  obtain ⟨m, rfl⟩ : ∃ m, n = m + 1 := ⟨n - 1, (Nat.succ_pred_eq_of_pos h).symm⟩
  have hstep : init_microphone_permission_step initialProcState =
      { initDone := true, tasksScheduled := 1 } := by
    simp [init_microphone_permission_step, initialProcState]
  have hcalls : init_microphone_permission_calls (m + 1) initialProcState =
      { initDone := true, tasksScheduled := 1 } := by
    simp only [init_microphone_permission_calls, hstep]
    exact init_calls_fixed m _ rfl
  refine ⟨by simp [hcalls], by simp [hcalls], ?_⟩
  intro s hs
  simp [init_microphone_permission_step, hs]

/-- Witness for C6 at N = 3 calls. -/
theorem init_microphone_permission_once_only_witness :
    1 ≤ 3 ∧
    ((init_microphone_permission_calls 3 initialProcState).tasksScheduled = 1 ∧
      (init_microphone_permission_calls 3 initialProcState).initDone = true ∧
      ∀ s : ProcState, s.initDone = true →
        (init_microphone_permission_step s).initDone = true) :=
  ⟨by decide, init_microphone_permission_once_only 3 (by decide)⟩

/-- C7: for either capability, when the check reports not-granted and the
    request fails, ensure returns `false` (not granted) rather than
    propagating the request error. -/
theorem ensure_returns_not_granted_on_request_failure
    (dev1 dev2 : Option Unit) (trigger : Except String Unit)
    (spawn : String → Except String Unit) (e1 e2 : String)
    (h1 : check_microphone_permission dev1 = false)
    (h2 : request_microphone_permission trigger = Except.error e1)
    (h3 : request_screen_recording_permission spawn = Except.error e2) :
    ensure_microphone_permission dev1 dev2 trigger = false ∧
    (ensure_screen_recording_permission_body false spawn).1 = false := by
  constructor
  · cases dev1 <;> cases trigger <;>
      simp_all [ensure_microphone_permission, ensure_microphone_permission_eff,
        check_microphone_permission, check_microphone_permission_eff,
        request_microphone_permission, request_microphone_permission_eff]
  · cases hr : (request_screen_recording_permission_eff spawn).1 <;>
      simp [ensure_screen_recording_permission_body, hr]

/-- Witness for C7: no device, a failing microphone probe and a failing
    launcher spawn. -/
theorem ensure_returns_not_granted_on_request_failure_witness :
    check_microphone_permission none = false ∧
    request_microphone_permission (Except.error "fail") = Except.error "fail" ∧
    request_screen_recording_permission (fun _ => Except.error "boom") =
      Except.error "Failed to open System Settings: boom" ∧
    (ensure_microphone_permission none none (Except.error "fail") = false ∧
      (ensure_screen_recording_permission_body false
        (fun _ => Except.error "boom")).1 = false) :=
  ⟨rfl, rfl, rfl,
    ensure_returns_not_granted_on_request_failure none none (Except.error "fail")
      (fun _ => Except.error "boom") "fail" "Failed to open System Settings: boom"
      rfl rfl rfl⟩

/-- C8: `request_screen_recording_permission` spawns the launcher with
    exactly the fixed identifier
    "x-apple.systempreferences:com.apple.preference.security", returns
    success when the spawn succeeds (never consulting the launched
    process further), and returns an error wrapping the underlying OS
    error text when the spawn fails. -/
theorem request_screen_recording_launch_contract
    (spawn : String → Except String Unit) :
    (request_screen_recording_permission_eff spawn).2 =
      [Effect.settingsLaunch
        "x-apple.systempreferences:com.apple.preference.security"] ∧
    (∀ u : Unit, spawn systemSettingsURI = Except.ok u →
      request_screen_recording_permission spawn = Except.ok ()) ∧
    (∀ e : String, spawn systemSettingsURI = Except.error e →
      request_screen_recording_permission spawn =
        Except.error ("Failed to open System Settings: " ++ e)) := by
  refine ⟨rfl, ?_, ?_⟩ <;> intro x hx <;>
    simp [request_screen_recording_permission,
      request_screen_recording_permission_eff, hx]

/-- Witness for C8 at a failing and a succeeding launcher. -/
theorem request_screen_recording_launch_contract_witness :
    ((fun _ : String => (Except.error "boom" : Except String Unit))
        systemSettingsURI = Except.error "boom" ∧
      request_screen_recording_permission (fun _ => Except.error "boom") =
        Except.error "Failed to open System Settings: boom") ∧
    ((fun _ : String => (Except.ok () : Except String Unit))
        systemSettingsURI = Except.ok () ∧
      request_screen_recording_permission (fun _ => Except.ok ()) =
        Except.ok ()) :=
  ⟨⟨rfl, (request_screen_recording_launch_contract
      (fun _ => Except.error "boom")).2.2 "boom" rfl⟩,
    ⟨rfl, (request_screen_recording_launch_contract
      (fun _ => Except.ok ())).2.1 () rfl⟩⟩

/-- C9: `check_microphone_permission` reports granted exactly when the
    default-audio-host query returns a device, and its only effect is the
    single non-mutating device query — no stream probe and no launcher
    spawn. -/
theorem check_microphone_reports_device_presence (dev : Option Unit) :
    (check_microphone_permission dev = true ↔ dev.isSome = true) ∧
    (check_microphone_permission_eff dev).2 = [Effect.micDeviceQuery] ∧
    ∀ ef ∈ (check_microphone_permission_eff dev).2,
      ef ≠ Effect.micStreamProbe ∧ ∀ uri, ef ≠ Effect.settingsLaunch uri := by
  cases dev <;>
    simp [check_microphone_permission, check_microphone_permission_eff]

/-- Witness for C9 at a present and an absent device. -/
theorem check_microphone_reports_device_presence_witness :
    check_microphone_permission (some ()) = true ∧
    check_microphone_permission none = false :=
  ⟨(check_microphone_reports_device_presence (some ())).1.mpr rfl,
    by
      have h := (check_microphone_reports_device_presence none).1
      simp at h
      exact h⟩

/-- C10: `ensure_screen_recording_permission` always returns exactly what
    `check_screen_recording_permission` returns, that check is constantly
    `true` (granted), and ensure's effect trace is empty — the request
    branch is unreachable, so the launcher is never spawned by ensure. -/
theorem ensure_screen_recording_equals_check
    (spawn : String → Except String Unit) :
    (ensure_screen_recording_permission spawn).1 =
      check_screen_recording_permission ∧
    check_screen_recording_permission = true ∧
    (ensure_screen_recording_permission spawn).2 = [] :=
  ⟨rfl, rfl, rfl⟩
